import Mathlib

/-!
Verification development for two libsigrokdecode protocol decoders:
the DMX512 bit-timing decoder (`src/decoders/dmx512/pd.py`) and the
SPI-flash command-dispatch decoder (`src/decoders/spiflash/pd.py`).

The Python decoders are shallowly embedded as pure Lean functions:
mutable instance fields become explicit state records, the per-event
`decode` loop becomes a step function folded over an event list, and
each `self.put(...)` call becomes an element of an emitted list of
structured records `(ss, es, class-id, payload)`.  Python's
float arithmetic on durations (`1 / rate * 1000000`, `4 / sample_usec`,
`runlen` comparisons) is modelled with exact rational arithmetic, and
Python's `round` (banker's rounding, ties to even) with an exact
round-half-to-even on a quotient of naturals.  Annotation text payloads
are modelled structurally (one constructor per distinct message shape,
carrying the numeric data that is formatted into the string).
-/

namespace Dmx512

/-- The four states of the DMX512 decoder's bit-timing state machine
(`self.state` in `src/decoders/dmx512/pd.py`). -/
inductive Mode
  | FIND_BREAK
  | MARK_MAB
  | READ_BYTE
  | MARK_IFT
deriving DecidableEq, Repr

/-- Structured payloads of the dmx512 decoder's emitted records, one
constructor per distinct `self.put` message shape in the source. -/
inductive Ann
  | bit (v : ℕ)
  | breakAnn
  | mab
  | startbit
  | stopbits
  | startcode
  | channelAnn (n : ℕ)
  | interframe
  | interpacket
  | data (b : ℕ)
  | errInvalidStart
  | errInvalidStop
deriving DecidableEq, Repr

/-- One emitted record: start sample, end sample, class index
(position of the class in the decoder's registered class tuple:
bit=0, break=1, mab=2, startbit=3, stopbits=4, startcode=5, channel=6,
interframe=7, interpacket=8, data=9, error=10) and structured payload. -/
structure Put where
  ss : ℤ
  es : ℤ
  cls : ℕ
  ann : Ann
deriving DecidableEq, Repr

/-- The decoder's mutable instance fields (`Decoder.__init__` plus the
fields first assigned later: `skip_per_bit` in `metadata`, and
`bit_break`, `channel`, `bit`, `aggreg`, `byte` in `decode`; the latter
are initialised to 0 here, and are never read by the source before
being assigned along any reachable path). -/
structure State where
  samplerate : Option ℚ := none
  sample_usec : ℚ := 0
  skip_per_bit : ℕ := 0
  samplenum : ℤ := -1
  run_start : ℤ := -1
  run_bit : ℕ := 0
  state : Mode := .FIND_BREAK
  bit_break : ℕ := 0
  channel : ℕ := 0
  bit : ℕ := 0
  aggreg : ℕ := 0
  byte : ℕ := 0
deriving DecidableEq, Repr

/-- `Decoder.metadata` for the samplerate key: records the rate, the
microseconds-per-sample quantum `1 / value * 1000000`, and
`skip_per_bit = int(4 / sample_usec)` (truncation of a positive float,
modelled as the floor of the exact rational). -/
def metadata (st : State) (rate : ℚ) : State :=
  let sample_usec : ℚ := 1 / rate * 1000000
  { st with
    samplerate := some rate
    sample_usec := sample_usec
    skip_per_bit := (⌊(4 : ℚ) / sample_usec⌋).toNat }

/-- Python's `round` on an exact nonnegative quotient `a / b`:
round to nearest, ties to even. -/
def round_half_even (a b : ℕ) : ℕ :=
  let q := a / b
  let r := a % b
  if 2 * r < b then q
  else if b < 2 * r then q + 1
  else if q % 2 = 0 then q else q + 1

/-- One iteration of the `for (self.samplenum, pins) in data` loop of
`Decoder.decode`: process one event `(n, p)` (sample number and pin
level) and return the updated state together with the records emitted
for this event, in emission order. -/
def step (st : State) (n : ℤ) (p : ℕ) : State × List Put :=
  let st := { st with samplenum := n }
  if st.state = .FIND_BREAK then
    if st.run_bit ≠ p then
      let runlen : ℚ := ((n - st.run_start : ℤ) : ℚ) * st.sample_usec
      let hit := 88 < runlen ∧ runlen < 180
      let st1 := if hit then
          { st with bit_break := st.run_bit, state := .MARK_MAB, channel := 0 }
        else st
      let anns : List Put := if hit then [⟨st.run_start, n, 1, .breakAnn⟩] else []
      ({ st1 with run_bit := p, run_start := n }, anns)
    else (st, [])
  else if st.state = .MARK_MAB then
    if st.run_bit ≠ p then
      ({ st with state := .READ_BYTE, channel := 0, bit := 0, aggreg := p, run_start := n },
       [⟨st.run_start, n, 2, .mab⟩])
    else (st, [])
  else if st.state = .READ_BYTE then
    let next_sample : ℤ := st.run_start + ((st.bit + 1) * st.skip_per_bit : ℕ)
    let aggreg := st.aggreg + p
    if n = next_sample then
      let bit_value : ℕ :=
        if round_half_even aggreg st.skip_per_bit = st.bit_break then 0 else 1
      let st := { st with aggreg := p }
      let branched : State × List Put :=
        if st.bit = 0 then
          let st2 := { st with byte := 0 }
          if bit_value ≠ 0 then
            ({ st2 with run_bit := p, state := .FIND_BREAK },
             [⟨st.run_start, n, 3, .startbit⟩, ⟨n, n, 10, .errInvalidStart⟩])
          else
            (st2, [⟨st.run_start, n, 3, .startbit⟩])
        else if 9 ≤ st.bit then
          if bit_value ≠ 1 then
            ({ st with run_bit := p, state := .FIND_BREAK },
             [⟨n - (st.skip_per_bit : ℤ), n, 4, .stopbits⟩, ⟨n, n, 10, .errInvalidStop⟩])
          else
            (st, [⟨n - (st.skip_per_bit : ℤ), n, 4, .stopbits⟩])
        else
          ({ st with byte := st.byte ||| (bit_value <<< (st.bit - 1)) },
           [⟨n - (st.skip_per_bit : ℤ), n, 0, .bit bit_value⟩])
      let st1 := branched.1
      let completed : State × List Put :=
        if st1.bit = 10 then
          let headAnn : Put :=
            if st1.channel = 0 then ⟨st1.run_start, next_sample, 5, .startcode⟩
            else ⟨st1.run_start, next_sample, 6, .channelAnn st1.channel⟩
          let dataAnn : Put :=
            ⟨st1.run_start + (st1.skip_per_bit : ℤ),
             next_sample - 2 * (st1.skip_per_bit : ℤ), 9, .data st1.byte⟩
          ({ st1 with channel := st1.channel + 1, run_start := n, run_bit := p,
                      state := .MARK_IFT },
           [headAnn, dataAnn])
        else (st1, [])
      ({ completed.1 with bit := completed.1.bit + 1 },
       branched.2 ++ completed.2)
    else ({ st with aggreg := aggreg }, [])
  else if st.state = .MARK_IFT then
    if st.run_bit ≠ p then
      if 512 < st.channel then
        ({ st with state := .FIND_BREAK, run_bit := p, run_start := n },
         [⟨st.run_start, n, 8, .interpacket⟩])
      else
        ({ st with state := .READ_BYTE, bit := 0, run_start := n },
         [⟨st.run_start, n, 7, .interframe⟩])
    else (st, [])
  else (st, [])

/-- The `for (self.samplenum, pins) in data` loop of `Decoder.decode`
once the samplerate guard has passed: thread the state through `step`
event by event, concatenating the emitted records in order. -/
def stepEvents : State → List (ℤ × ℕ) → State × List Put
  | st, [] => (st, [])
  | st, e :: evs =>
    let r := step st e.1 e.2
    let rest := stepEvents r.1 evs
    (rest.1, r.2 ++ rest.2)

/-- `Decoder.decode`: raises `Exception("Cannot decode without samplerate.")`
before touching any event when no samplerate has been supplied, and
otherwise processes the whole event stream. -/
def decode (st : State) (evs : List (ℤ × ℕ)) : Except String (State × List Put) :=
  if st.samplerate = none then .error "Cannot decode without samplerate."
  else .ok (stepEvents st evs)

end Dmx512

namespace SpiFlash

/-- The command handlers of the spiflash decoder, one constructor per
`Decoder.handle_*` method in `src/decoders/spiflash/pd.py` (`t2read`
stands for the method `handle_2read`, whose name starts with a digit). -/
inductive Handler
  | wren | wrdi | rdid | rdsr | wrsr | read | fast_read | t2read | se | be
  | ce | ce2 | pp | cp | dp | rdp_res | rems | rems2 | enso | exso
  | rdscur | wrscur | esry | dsry
deriving DecidableEq, Repr

/-- Label passed by the two deferred end-of-transaction closures to
`Decoder.output_data_block` (`'Read'` or `'Page data'`). -/
inductive Label
  | readData
  | pageData
deriving DecidableEq, Repr

/-- Structured payloads of the spiflash decoder's emitted records, one
constructor per distinct message shape in the source (string formatting
is not modelled; each constructor carries the numbers that the source
formats into the string). -/
inductive Ann
  | command (h : Handler)
  | manufacturerId (b : ℕ)
  | memoryType (b : ℕ)
  | deviceId (b : ℕ)
  | device (id : ℕ)
  | statusReg (b : ℕ)
  | statusRegDecoded (b : ℕ)
  | readAddress (a : ℕ)
  | adByte (i : ℕ) (b : ℕ)
  | dummyByte (b : ℕ)
  | pageAddress (a : ℕ)
  | eraseSector (a : ℕ)
  | warnInvalidSectorAddress
  | masterWantsFirst (b : ℕ)
  | idAnn (manufacturerFirst : Bool)
  | dataBlock (label : Label) (bytes : List ℕ)
  | unknownCommand (b : ℕ)
deriving DecidableEq, Repr

/-- One emitted record `(ss, es, class index, payload)`.  The decoder
registers 27 classes: 24 command classes (indices 0..23, one
per entry of the `cmds` table, cf. the `commands` row
`tuple(range(23 + 1))` in `annotation_rows`), then `bits` = 24,
`bits2` = 25 and `warnings` = 26. -/
structure Put where
  ss : ℤ
  es : ℤ
  cls : ℕ
  ann : Ann
deriving DecidableEq, Repr

/-- Index of the registered `warnings` class: the 27 registered classes
are the 24 command classes 0..23 followed by `bits`, `bits2`,
`warnings` (cf. `annotations` and `annotation_rows` in the source). -/
def warnings_cls : ℕ := 26

/-- Number of registered spiflash classes (0..26 are valid indices). -/
def num_cls : ℕ := 27

/-- The spiflash decoder's mutable instance fields.  The deferred
`on_end_transaction` closure (`lambda: self.output_data_block(label)`)
is modelled as the optional label it closes over, interpreted by
`output_data_block` at flush time (the closure reads `self.data`,
`self.ss_block` and `self.es` only when invoked). -/
structure State where
  on_end_transaction : Option Label := none
  state : Option ℕ := none
  cmdstate : ℕ := 1
  addr : ℕ := 0
  data : List ℕ := []
  ss : ℤ := 0
  es : ℤ := 0
  ss_block : ℤ := 0
  es_block : ℤ := 0
  device_id : ℕ := 0
  manufacturer_id_first : Bool := false
  ids : List ℕ := []
deriving DecidableEq, Repr

/-- `Decoder.putx`: emit over the current packet span `(self.ss, self.es)`. -/
def putx (st : State) (cls : ℕ) (a : Ann) : Put := ⟨st.ss, st.es, cls, a⟩

/-- `Decoder.putb`: emit over the current block span
`(self.ss_block, self.es_block)`. -/
def putb (st : State) (cls : ℕ) (a : Ann) : Put := ⟨st.ss_block, st.es_block, cls, a⟩

/-- `Decoder.output_data_block`: sets `es_block` to the current `es`
and emits the accumulated data bytes with class 25 (`bits2`). -/
def output_data_block (st : State) (label : Label) : State × List Put :=
  let st := { st with es_block := st.es }
  (st, [putb st 25 (.dataBlock label st.data)])

/-- `Decoder.end_current_transaction`: run the deferred callback at most
once, clear it, and reset opcode, offset, address and data buffer. -/
def end_current_transaction (st : State) : State × List Put :=
  let flushed : State × List Put :=
    match st.on_end_transaction with
    | some label => output_data_block st label
    | none => (st, [])
  ({ flushed.1 with on_end_transaction := none, state := none, cmdstate := 1,
                    addr := 0, data := [] },
   flushed.2)

/-- `Decoder.handle_wren`: emit the command record and clear the opcode. -/
def handle_wren (st : State) (_mosi _miso : ℕ) : State × List Put :=
  ({ st with state := none }, [putx st 0 (.command .wren)])

/-- `Decoder.handle_wrdi`: `pass  # TODO` — does nothing, in particular
it does not clear the active opcode. -/
def handle_wrdi (st : State) (_mosi _miso : ℕ) : State × List Put :=
  (st, [])

/-- `Decoder.handle_rdid` (fixed 4-byte exchange; the final record's
device-name table lookup is modelled by the raw id). -/
def handle_rdid (st : State) (_mosi miso : ℕ) : State × List Put :=
  let step1 : State × List Put :=
    if st.cmdstate = 1 then
      let st := { st with ss_block := st.ss }
      (st, [putx st 2 (.command .rdid)])
    else if st.cmdstate = 2 then (st, [putx st 2 (.manufacturerId miso)])
    else if st.cmdstate = 3 then (st, [putx st 2 (.memoryType miso)])
    else if st.cmdstate = 4 then
      ({ st with device_id := miso }, [putx st 2 (.deviceId miso)])
    else (st, [])
  let st1 := step1.1
  if st1.cmdstate = 4 then
    ({ st1 with state := none },
     step1.2 ++ [⟨st1.ss_block, st1.es, 0, .device st1.device_id⟩])
  else ({ st1 with cmdstate := st1.cmdstate + 1 }, step1.2)

/-- `Decoder.handle_rdsr`: byte 1 is the command, every further byte is
a status-register value, decoded until the session ends. -/
def handle_rdsr (st : State) (_mosi miso : ℕ) : State × List Put :=
  let anns : List Put :=
    if st.cmdstate = 1 then [putx st 3 (.command .rdsr)]
    else if 2 ≤ st.cmdstate then
      [putx st 24 (.statusReg miso), putx st 25 (.statusRegDecoded miso)]
    else []
  ({ st with cmdstate := st.cmdstate + 1 }, anns)

/-- `Decoder.handle_read`: opcode, 3-byte MSB-first address, then data
bytes appended until the session ends; the deferred dump callback is
registered on the first data byte (offset 5). -/
def handle_read (st : State) (mosi miso : ℕ) : State × List Put :=
  let step1 : State × List Put :=
    if st.cmdstate = 1 then (st, [putx st 5 (.command .read)])
    else if st.cmdstate = 2 ∨ st.cmdstate = 3 ∨ st.cmdstate = 4 then
      let st := { st with addr := st.addr ||| (mosi <<< ((4 - st.cmdstate) * 8)) }
      if st.cmdstate = 4 then
        ({ st with addr := 0 }, [putx st 24 (.readAddress st.addr)])
      else (st, [])
    else if 5 ≤ st.cmdstate then
      let st := if st.cmdstate = 5 then
          { st with ss_block := st.ss, on_end_transaction := some .readData }
        else st
      ({ st with data := st.data ++ [miso] }, [])
    else (st, [])
  ({ step1.1 with cmdstate := step1.1.cmdstate + 1 }, step1.2)

/-- `Decoder.handle_fast_read`: opcode, 3 address bytes (each also
emitted as an `AD` record), a dummy byte (on which the accumulated
address is emitted), then data bytes as in `handle_read`. -/
def handle_fast_read (st : State) (mosi miso : ℕ) : State × List Put :=
  let step1 : State × List Put :=
    if st.cmdstate = 1 then (st, [putx st 5 (.command .fast_read)])
    else if st.cmdstate = 2 ∨ st.cmdstate = 3 ∨ st.cmdstate = 4 then
      let anns := [putx st 24 (.adByte (st.cmdstate - 1) mosi)]
      let st := if st.cmdstate = 2 then { st with ss_block := st.ss } else st
      ({ st with addr := st.addr ||| (mosi <<< ((4 - st.cmdstate) * 8)) }, anns)
    else if st.cmdstate = 5 then
      let st1 := { st with es_block := st.es }
      ({ st1 with addr := 0 },
       [putx st 24 (.dummyByte mosi), putb st1 5 (.readAddress st1.addr)])
    else if 6 ≤ st.cmdstate then
      let st := if st.cmdstate = 6 then
          { st with ss_block := st.ss, on_end_transaction := some .readData }
        else st
      ({ st with data := st.data ++ [miso] }, [])
    else (st, [])
  ({ step1.1 with cmdstate := step1.1.cmdstate + 1 }, step1.2)

/-- `decode_dual_bytes`'s inner `combine_byte`: bit `b` (0..3) of
`even` contributes bit `2b`, bit `b` of `odd` contributes bit `2b+1`. -/
def combine_byte (even odd : ℕ) : ℕ :=
  (List.range 4).foldl (fun result bit =>
    let r1 := if even &&& (1 <<< bit) ≠ 0 then result ||| (1 <<< (bit * 2)) else result
    if odd &&& (1 <<< bit) ≠ 0 then r1 ||| (1 <<< (bit * 2 + 1)) else r1) 0

/-- `decode_dual_bytes`: de-interleave a dual-I/O byte pair (SIO0 =
even bits, SIO1 = odd bits) into two reconstructed bytes, high
nibble-pair first. -/
def decode_dual_bytes (sio0 sio1 : ℕ) : ℕ × ℕ :=
  (combine_byte (sio0 >>> 4) (sio1 >>> 4), combine_byte sio0 sio1)

/-- `Decoder.handle_2read`: byte 1 is the command; every further byte
pair is de-interleaved and each reconstructed byte is passed (as both
mosi and miso) through `handle_fast_read`, in order. -/
def handle_2read (st : State) (mosi miso : ℕ) : State × List Put :=
  if st.cmdstate = 1 then
    ({ st with cmdstate := 2 }, [putx st 5 (.command .t2read)])
  else
    let ab := decode_dual_bytes mosi miso
    let r1 := handle_fast_read st ab.1 ab.1
    let r2 := handle_fast_read r1.1 ab.2 ab.2
    (r2.1, r1.2 ++ r2.2)

/-- `Decoder.handle_se` (sector erase): opcode, 3-byte MSB-first sector
address; on the 4th byte the sector record is emitted, a warning record
with class index 101 is emitted when the address is not 4096-aligned,
and the opcode is cleared. -/
def handle_se (st : State) (mosi _miso : ℕ) : State × List Put :=
  let step1 : State × List Put :=
    if st.cmdstate = 1 then
      let st := { st with addr := 0, ss_block := st.ss }
      (st, [putx st 8 (.command .se)])
    else if st.cmdstate = 2 ∨ st.cmdstate = 3 ∨ st.cmdstate = 4 then
      ({ st with addr := st.addr ||| (mosi <<< ((4 - st.cmdstate) * 8)) }, [])
    else (st, [])
  let st1 := step1.1
  if st1.cmdstate = 4 then
    let warn : List Put :=
      if st1.addr % 4096 ≠ 0 then [⟨st1.ss_block, st1.es, 101, .warnInvalidSectorAddress⟩]
      else []
    ({ st1 with state := none },
     step1.2 ++ [⟨st1.ss_block, st1.es, 24, .eraseSector st1.addr⟩] ++ warn)
  else ({ st1 with cmdstate := st1.cmdstate + 1 }, step1.2)

/-- `Decoder.handle_pp` (page program): opcode, 3-byte MSB-first page
address, then data bytes appended until the session ends; the deferred
dump callback is registered on the first data byte (offset 5). -/
def handle_pp (st : State) (mosi _miso : ℕ) : State × List Put :=
  let step1 : State × List Put :=
    if st.cmdstate = 1 then (st, [putx st 12 (.command .pp)])
    else if st.cmdstate = 2 ∨ st.cmdstate = 3 ∨ st.cmdstate = 4 then
      let st := { st with addr := st.addr ||| (mosi <<< ((4 - st.cmdstate) * 8)) }
      if st.cmdstate = 4 then
        ({ st with addr := 0 }, [putx st 24 (.pageAddress st.addr)])
      else (st, [])
    else if 5 ≤ st.cmdstate then
      let st := if st.cmdstate = 5 then
          { st with ss_block := st.ss, on_end_transaction := some .pageData }
        else st
      ({ st with data := st.data ++ [mosi] }, [])
    else (st, [])
  ({ step1.1 with cmdstate := step1.1.cmdstate + 1 }, step1.2)

/-- `Decoder.handle_rems`: opcode, two dummy bytes, one selector byte,
two id bytes; on the 6th byte the resolved device record is emitted
(device-name table lookup modelled by the raw id). -/
def handle_rems (st : State) (mosi miso : ℕ) : State × List Put :=
  let step1 : State × List Put :=
    if st.cmdstate = 1 then
      let st := { st with ss_block := st.ss }
      (st, [putx st 16 (.command .rems)])
    else if st.cmdstate = 2 ∨ st.cmdstate = 3 then
      (st, [putx st 24 (.dummyByte mosi)])
    else if st.cmdstate = 4 then
      ({ st with manufacturer_id_first := mosi = 0 },
       [putx st 24 (.masterWantsFirst mosi)])
    else if st.cmdstate = 5 then
      ({ st with ids := [miso] }, [putx st 24 (.idAnn st.manufacturer_id_first)])
    else if st.cmdstate = 6 then
      ({ st with ids := st.ids ++ [miso] },
       [putx st 24 (.idAnn st.manufacturer_id_first)])
    else (st, [])
  let st1 := step1.1
  if st1.cmdstate = 6 then
    let id := if st1.manufacturer_id_first then st1.ids.getD 1 0 else st1.ids.getD 0 0
    ({ st1 with state := none }, step1.2 ++ [putx st1 24 (.device id)])
  else ({ st1 with cmdstate := st1.cmdstate + 1 }, step1.2)

/-- Dispatch a handler tag to its implementation; the `pass  # TODO`
stub handlers consume their byte pair without emitting or changing
state, exactly as the source methods do. -/
def runHandler (h : Handler) (st : State) (mosi miso : ℕ) : State × List Put :=
  match h with
  | .wren => handle_wren st mosi miso
  | .wrdi => handle_wrdi st mosi miso
  | .rdid => handle_rdid st mosi miso
  | .rdsr => handle_rdsr st mosi miso
  | .read => handle_read st mosi miso
  | .fast_read => handle_fast_read st mosi miso
  | .t2read => handle_2read st mosi miso
  | .se => handle_se st mosi miso
  | .pp => handle_pp st mosi miso
  | .rems => handle_rems st mosi miso
  | _ => (st, [])

/-- Modelled from the spec: the opcode→handler table `cmds`, defined in
`src/decoders/spiflash/lists.py`, which is not part of the sources in
scope (the spec treats opcode tables as static configuration).  The
spec fixes the handler set and the xx25-series protocol; the 24 entries
below are the standard xx25 opcode assignments for exactly the 24
`handle_*` methods of the source decoder. -/
def cmd_handlers (op : ℕ) : Option Handler :=
  if op = 0x06 then some .wren else if op = 0x04 then some .wrdi
  else if op = 0x9f then some .rdid else if op = 0x05 then some .rdsr
  else if op = 0x01 then some .wrsr else if op = 0x03 then some .read
  else if op = 0x0b then some .fast_read else if op = 0xbb then some .t2read
  else if op = 0x20 then some .se else if op = 0xd8 then some .be
  else if op = 0x60 then some .ce else if op = 0xc7 then some .ce2
  else if op = 0x02 then some .pp else if op = 0xad then some .cp
  else if op = 0xb9 then some .dp else if op = 0xab then some .rdp_res
  else if op = 0x90 then some .rems else if op = 0xef then some .rems2
  else if op = 0xb1 then some .enso else if op = 0xc1 then some .exso
  else if op = 0x2b then some .rdscur else if op = 0x2f then some .wrscur
  else if op = 0x70 then some .esry else if op = 0x80 then some .dsry
  else none

/-- Kind tag of an incoming packet (`ptype` in `Decoder.decode`). -/
inductive PType
  | CS_CHANGE
  | DATA
  | other
deriving DecidableEq, Repr

/-- `Decoder.decode`: record the packet span; on `CS-CHANGE` flush the
session; ignore non-`DATA` packets; otherwise adopt the primary byte as
the opcode when none is active and dispatch to the opcode's handler,
emitting `Unknown command` and clearing the opcode when the table has
no entry (the `except KeyError` branch). -/
def decode (st : State) (ss es : ℤ) (ptype : PType) (mosi miso : ℕ) :
    State × List Put :=
  let st := { st with ss := ss, es := es }
  let flushed : State × List Put :=
    if ptype = .CS_CHANGE then end_current_transaction st else (st, [])
  let st := flushed.1
  if ptype ≠ .DATA then (st, flushed.2)
  else
    let op : ℕ := match st.state with | none => mosi | some o => o
    let st := if st.state = none then { st with state := some op, cmdstate := 1 } else st
    match cmd_handlers op with
    | some h =>
      let r := runHandler h st mosi miso
      (r.1, flushed.2 ++ r.2)
    | none =>
      ({ st with state := none }, flushed.2 ++ [putx st 24 (.unknownCommand mosi)])

/-- Thread the state through `decode` packet by packet, concatenating
the emitted records in order (the host feeds the decoder one packet per
call; this is that call sequence). -/
def decodeEvents : State → List (ℤ × ℤ × PType × ℕ × ℕ) → State × List Put
  | st, [] => (st, [])
  | st, e :: evs =>
    let r := decode st e.1 e.2.1 e.2.2.1 e.2.2.2.1 e.2.2.2.2
    let rest := decodeEvents r.1 evs
    (rest.1, r.2 ++ rest.2)

/-- Spec-side definition for the C4 round-trip claim, following the
spec's words: collect the even-indexed bits of a reconstructed byte
(bits 0, 2, 4, 6) back into a nibble. -/
def even_bits (x : ℕ) : ℕ :=
  (List.range 4).foldl (fun acc b =>
    if x &&& (1 <<< (2 * b)) ≠ 0 then acc ||| (1 <<< b) else acc) 0

/-- Spec-side definition for the C4 round-trip claim: collect the
odd-indexed bits of a reconstructed byte (bits 1, 3, 5, 7) back into a
nibble. -/
def odd_bits (x : ℕ) : ℕ :=
  (List.range 4).foldl (fun acc b =>
    if x &&& (1 <<< (2 * b + 1)) ≠ 0 then acc ||| (1 <<< b) else acc) 0

/-- Spec-side definition for the C4 round-trip claim: re-split the two
reconstructed bytes (high nibble-pair first) back into the
primary/secondary pair — even-indexed bits to the primary byte,
odd-indexed bits to the secondary byte. -/
def resplit (a b : ℕ) : ℕ × ℕ :=
  ((even_bits a <<< 4) ||| even_bits b, (odd_bits a <<< 4) ||| odd_bits b)

end SpiFlash

/-! ### Theorems about the dmx512 bit-timing engine -/

/-- C2: in the FIND_BREAK (SEEK_BREAK) state, a run closed by a level
change is classified as a BREAK — emitting the `Break` record over the
run, recording the run's level as the zero reference in `bit_break`,
moving to MARK_MAB with the channel counter reset to 0 — exactly when
its duration `(n - run_start) * sample_usec` is strictly between 88 and
180 µs; otherwise (including durations of exactly 88 or 180 µs) the
state is unchanged and only the run tracking restarts. -/
theorem dmx_seek_break_window (st : Dmx512.State) (n : ℤ) (p : ℕ)
    (hmode : st.state = .FIND_BREAK) (hchg : st.run_bit ≠ p) :
    (88 < ((n - st.run_start : ℤ) : ℚ) * st.sample_usec ∧
        ((n - st.run_start : ℤ) : ℚ) * st.sample_usec < 180 →
      Dmx512.step st n p =
        ({ st with samplenum := n, bit_break := st.run_bit, state := .MARK_MAB,
                   channel := 0, run_bit := p, run_start := n },
         [⟨st.run_start, n, 1, .breakAnn⟩]))
    ∧ (¬(88 < ((n - st.run_start : ℤ) : ℚ) * st.sample_usec ∧
          ((n - st.run_start : ℤ) : ℚ) * st.sample_usec < 180) →
      Dmx512.step st n p =
        ({ st with samplenum := n, run_bit := p, run_start := n }, [])) := by
  constructor <;> intro h <;>
    · simp only [Dmx512.step, hmode, hchg, ne_eq, not_false_eq_true, if_true,
        ite_true, reduceIte]
      first
      | simp only [if_pos h]
      | simp only [if_neg h]

/-- Witness for C2 at 1 Msample/s (1 µs per sample): an 89 µs run is a
BREAK, while runs of exactly 88 µs and exactly 180 µs are not. -/
theorem dmx_seek_break_window_witness :
    (Dmx512.step { Dmx512.metadata {} 1000000 with run_start := 10, samplenum := 10 } 99 1).1.state
        = Dmx512.Mode.MARK_MAB ∧
    (Dmx512.step { Dmx512.metadata {} 1000000 with run_start := 10, samplenum := 10 } 99 1).2
        = [⟨10, 99, 1, .breakAnn⟩] ∧
    (Dmx512.step { Dmx512.metadata {} 1000000 with run_start := 10, samplenum := 10 } 98 1).2 = [] ∧
    (Dmx512.step { Dmx512.metadata {} 1000000 with run_start := 10, samplenum := 10 } 190 1).2 = [] := by
  have h1 := (dmx_seek_break_window
    { Dmx512.metadata {} 1000000 with run_start := 10, samplenum := 10 } 99 1 rfl
    (by decide)).1 (by with_unfolding_all decide)
  have h2 := (dmx_seek_break_window
    { Dmx512.metadata {} 1000000 with run_start := 10, samplenum := 10 } 98 1 rfl
    (by decide)).2 (by with_unfolding_all decide)
  have h3 := (dmx_seek_break_window
    { Dmx512.metadata {} 1000000 with run_start := 10, samplenum := 10 } 190 1 rfl
    (by decide)).2 (by with_unfolding_all decide)
  rw [h1, h2, h3]
  exact ⟨rfl, rfl, rfl, rfl⟩

/-- C7: the channel counter is reset to 0 by every classified BREAK,
incremented by exactly 1 on every completed byte (bit index 10 sampled
in READ_BYTE), and in MARK_IFT the next level change is classified as
`Interpacket` with a transition to FIND_BREAK exactly when the channel
count exceeds 512, and otherwise as `Interframe` with a transition back
to READ_BYTE and bit index 0. -/
theorem dmx_channel_counter (st : Dmx512.State) (n : ℤ) (p : ℕ) :
    (st.state = .FIND_BREAK → st.run_bit ≠ p →
      88 < ((n - st.run_start : ℤ) : ℚ) * st.sample_usec →
      ((n - st.run_start : ℤ) : ℚ) * st.sample_usec < 180 →
      (Dmx512.step st n p).1.channel = 0)
    ∧ (st.state = .READ_BYTE → st.bit = 10 →
      n = st.run_start + ((st.bit + 1) * st.skip_per_bit : ℕ) →
      (Dmx512.step st n p).1.channel = st.channel + 1)
    ∧ (st.state = .MARK_IFT → st.run_bit ≠ p →
      (512 < st.channel →
        Dmx512.step st n p =
          ({ st with samplenum := n, state := .FIND_BREAK, run_bit := p, run_start := n },
           [⟨st.run_start, n, 8, .interpacket⟩]))
      ∧ (¬ 512 < st.channel →
        Dmx512.step st n p =
          ({ st with samplenum := n, state := .READ_BYTE, bit := 0, run_start := n },
           [⟨st.run_start, n, 7, .interframe⟩]))) := by
  refine ⟨fun hmode hchg h88 h180 => ?_, fun hmode hbit hn => ?_,
    fun hmode hchg => ⟨fun hch => ?_, fun hch => ?_⟩⟩
  · simp only [Dmx512.step, hmode, hchg, ne_eq, not_false_eq_true, if_true,
      ite_true, reduceIte]
    simp only [if_pos (And.intro h88 h180)]
  · subst hn
    by_cases hbv : Dmx512.round_half_even (st.aggreg + p) st.skip_per_bit = st.bit_break <;>
      simp [Dmx512.step, hmode, hbit, hbv]
  · simp only [Dmx512.step, hmode, hchg, ne_eq, not_false_eq_true, if_true,
      ite_true, reduceIte, reduceCtorEq, if_false, ite_false]
    simp only [if_pos hch]
  · simp only [Dmx512.step, hmode, hchg, ne_eq, not_false_eq_true, if_true,
      ite_true, reduceIte, reduceCtorEq, if_false, ite_false]
    simp only [if_neg hch]

/-- Witness for C7: a classified BREAK leaves channel 0; completing a
byte takes channel 7 to 8; in MARK_IFT a level change at channel 513
yields `Interpacket` and FIND_BREAK, while channel 512 still yields
`Interframe` and READ_BYTE. -/
theorem dmx_channel_counter_witness :
    (Dmx512.step { Dmx512.metadata {} 1000000 with run_start := 10, samplenum := 10 } 99 1).1.channel = 0 ∧
    (Dmx512.step
      { samplerate := some 1000000, sample_usec := 1, skip_per_bit := 4,
        samplenum := 153, run_start := 110, run_bit := 0, state := .READ_BYTE,
        bit_break := 0, channel := 7, bit := 10, aggreg := 3, byte := 85 } 154 1).1.channel = 8 ∧
    (Dmx512.step
      { samplerate := some 1000000, sample_usec := 1, skip_per_bit := 4,
        samplenum := 20, run_start := 20, run_bit := 0, state := .MARK_IFT,
        bit_break := 0, channel := 513, bit := 11, aggreg := 0, byte := 0 } 30 1).1.state
      = Dmx512.Mode.FIND_BREAK ∧
    (Dmx512.step
      { samplerate := some 1000000, sample_usec := 1, skip_per_bit := 4,
        samplenum := 20, run_start := 20, run_bit := 0, state := .MARK_IFT,
        bit_break := 0, channel := 513, bit := 11, aggreg := 0, byte := 0 } 30 1).2
      = [⟨20, 30, 8, .interpacket⟩] ∧
    (Dmx512.step
      { samplerate := some 1000000, sample_usec := 1, skip_per_bit := 4,
        samplenum := 20, run_start := 20, run_bit := 0, state := .MARK_IFT,
        bit_break := 0, channel := 512, bit := 11, aggreg := 0, byte := 0 } 30 1).2
      = [⟨20, 30, 7, .interframe⟩] := by
  have ha := (dmx_channel_counter
    { Dmx512.metadata {} 1000000 with run_start := 10, samplenum := 10 } 99 1).1
    rfl (by decide) (by with_unfolding_all decide) (by with_unfolding_all decide)
  have hb := (dmx_channel_counter
    { samplerate := some 1000000, sample_usec := 1, skip_per_bit := 4,
      samplenum := 153, run_start := 110, run_bit := 0, state := .READ_BYTE,
      bit_break := 0, channel := 7, bit := 10, aggreg := 3, byte := 85 } 154 1).2.1
    rfl rfl (by decide)
  have hc := ((dmx_channel_counter
    { samplerate := some 1000000, sample_usec := 1, skip_per_bit := 4,
      samplenum := 20, run_start := 20, run_bit := 0, state := .MARK_IFT,
      bit_break := 0, channel := 513, bit := 11, aggreg := 0, byte := 0 } 30 1).2.2
    rfl (by decide)).1 (by decide)
  have hd := ((dmx_channel_counter
    { samplerate := some 1000000, sample_usec := 1, skip_per_bit := 4,
      samplenum := 20, run_start := 20, run_bit := 0, state := .MARK_IFT,
      bit_break := 0, channel := 512, bit := 11, aggreg := 0, byte := 0 } 30 1).2.2
    rfl (by decide)).2 (by decide)
  rw [hb, hc, hd]
  exact ⟨ha, rfl, rfl, rfl, rfl⟩

/-- C8: in READ_BYTE, when the start-bit window (bit index 0) is
sampled and its decoded value is not 0, the engine emits the `Start
bit` record followed by exactly one `Invalid start bit` error record
and transitions back to FIND_BREAK, adopting the current level as the
run level; the second and third conjuncts replay a concrete stream (at
1 µs per sample, break level 0) in which the flipped start bit yields
exactly one error record and a following valid 100 µs break is still
classified. -/
theorem dmx_invalid_start_bit (st : Dmx512.State) (n : ℤ) (p : ℕ)
    (hmode : st.state = .READ_BYTE) (hbit : st.bit = 0)
    (hn : n = st.run_start + ((st.bit + 1) * st.skip_per_bit : ℕ))
    (hbv : Dmx512.round_half_even (st.aggreg + p) st.skip_per_bit ≠ st.bit_break) :
    (Dmx512.step st n p =
      ({ st with samplenum := n, aggreg := p, byte := 0, run_bit := p,
                 state := .FIND_BREAK, bit := 1 },
       [⟨st.run_start, n, 3, .startbit⟩, ⟨n, n, 10, .errInvalidStart⟩])) ∧
    (Dmx512.stepEvents
      { samplerate := some 1000000, sample_usec := 1, skip_per_bit := 4,
        samplenum := 100, run_start := 100, run_bit := 0, state := .READ_BYTE,
        bit_break := 0, channel := 0, bit := 0, aggreg := 1, byte := 0 }
      [(101,1),(102,1),(103,1),(104,1),(150,0),(250,1)]).2 =
      [⟨100, 104, 3, .startbit⟩, ⟨104, 104, 10, .errInvalidStart⟩,
       ⟨150, 250, 1, .breakAnn⟩] ∧
    (Dmx512.stepEvents
      { samplerate := some 1000000, sample_usec := 1, skip_per_bit := 4,
        samplenum := 100, run_start := 100, run_bit := 0, state := .READ_BYTE,
        bit_break := 0, channel := 0, bit := 0, aggreg := 1, byte := 0 }
      [(101,1),(102,1),(103,1),(104,1),(150,0),(250,1)]).1.state = Dmx512.Mode.MARK_MAB := by
  refine ⟨?_, by with_unfolding_all decide, by with_unfolding_all decide⟩
  subst hn
  simp [Dmx512.step, hmode, hbit, hbv]

/-- Witness for C8: a high start-bit window (accumulated level sum 5
over 4 samples per bit, rounding to 1 against break level 0) at sample
104 produces the two records and the FIND_BREAK resync. -/
theorem dmx_invalid_start_bit_witness :
    Dmx512.step
      { samplerate := some 1000000, sample_usec := 1, skip_per_bit := 4,
        samplenum := 103, run_start := 100, run_bit := 0, state := .READ_BYTE,
        bit_break := 0, channel := 0, bit := 0, aggreg := 4, byte := 0 } 104 1 =
      ({ samplerate := some 1000000, sample_usec := 1, skip_per_bit := 4,
         samplenum := 104, run_start := 100, run_bit := 1, state := .FIND_BREAK,
         bit_break := 0, channel := 0, bit := 1, aggreg := 1, byte := 0 },
       [⟨100, 104, 3, .startbit⟩, ⟨104, 104, 10, .errInvalidStart⟩]) := by
  have h := (dmx_invalid_start_bit
    { samplerate := some 1000000, sample_usec := 1, skip_per_bit := 4,
      samplenum := 103, run_start := 100, run_bit := 0, state := .READ_BYTE,
      bit_break := 0, channel := 0, bit := 0, aggreg := 4, byte := 0 } 104 1
    rfl rfl (by decide) (by decide)).1
  rw [h]

/-- C9: `decode` fails with the not-configured error, independently of
the supplied event stream (in particular before processing any event),
exactly when no samplerate has been recorded; with a samplerate
configured it always succeeds. -/
theorem dmx_requires_samplerate (st : Dmx512.State) (evs : List (ℤ × ℕ)) :
    (st.samplerate = none →
      Dmx512.decode st evs = .error "Cannot decode without samplerate." ∧
      Dmx512.decode st evs = Dmx512.decode st [])
    ∧ (st.samplerate ≠ none →
      Dmx512.decode st evs = .ok (Dmx512.stepEvents st evs)) := by
  constructor <;> intro h <;> simp [Dmx512.decode, h]

/-- Witness for C9: the freshly initialised decoder rejects a nonempty
stream with the not-configured error, and after `metadata` it accepts. -/
theorem dmx_requires_samplerate_witness :
    Dmx512.decode {} [(0,1),(10,0)] = .error "Cannot decode without samplerate." ∧
    Dmx512.decode (Dmx512.metadata {} 1000000) [] =
      .ok (Dmx512.stepEvents (Dmx512.metadata {} 1000000) []) := by
  refine ⟨((dmx_requires_samplerate {} [(0,1),(10,0)]).1 rfl).1, ?_⟩
  exact (dmx_requires_samplerate (Dmx512.metadata {} 1000000) []).2 (by decide)

/-- Helper for C10: in READ_BYTE with `skip_per_bit = 0` the sampling
instant equals the run start, which no event strictly after the run
start can reach, so the event only updates `samplenum` and the level
accumulator and emits nothing (the quotient `aggreg / skip_per_bit`
in the sampling branch is never taken). -/
theorem dmx_stall_step (st : Dmx512.State) (n : ℤ) (p : ℕ)
    (hmode : st.state = .READ_BYTE) (hskip : st.skip_per_bit = 0)
    (hlt : st.run_start < n) :
    Dmx512.step st n p = ({ st with samplenum := n, aggreg := st.aggreg + p }, []) := by
  have hne : n ≠ st.run_start + ((st.bit + 1) * st.skip_per_bit : ℕ) := by
    rw [hskip]; simp; omega
  simp only [Dmx512.step, hmode, reduceCtorEq, if_false, ite_false, reduceIte]
  simp only [if_neg hne]

/-- C10: `metadata` yields `skip_per_bit = 0` exactly when the sample
rate is below 250000 samples/s, and with `skip_per_bit = 0` the engine,
once in READ_BYTE, never reaches a sampling instant on any stream of
events lying strictly after the run start: it emits nothing, stays in
READ_BYTE and keeps the same run start (so the quotient by
`skip_per_bit` is never evaluated and the engine stalls silently). -/
theorem dmx_low_rate_stalls (rate : ℚ) (st : Dmx512.State) (evs : List (ℤ × ℕ)) :
    (0 < rate → ((Dmx512.metadata st rate).skip_per_bit = 0 ↔ rate < 250000))
    ∧ (st.state = .READ_BYTE → st.skip_per_bit = 0 → (∀ e ∈ evs, st.run_start < e.1) →
        (Dmx512.stepEvents st evs).2 = [] ∧
        (Dmx512.stepEvents st evs).1.state = .READ_BYTE ∧
        (Dmx512.stepEvents st evs).1.run_start = st.run_start) := by
  constructor
  · intro hr
    have hne : rate ≠ 0 := ne_of_gt hr
    have hq : (4 : ℚ) / (1 / rate * 1000000) = rate / 250000 := by
      field_simp
      ring
    simp only [Dmx512.metadata, hq, Int.toNat_eq_zero]
    constructor
    · intro hfl
      have h1 : ⌊rate / 250000⌋ < 1 := by omega
      have h2 := Int.floor_lt.mp h1
      rw [Int.cast_one] at h2
      exact (div_lt_one (by norm_num)).mp h2
    · intro hlt
      have h1 : rate / 250000 < ((1 : ℤ) : ℚ) := by
        rw [Int.cast_one]
        exact (div_lt_one (by norm_num)).mpr hlt
      have h2 := Int.floor_lt.mpr h1
      omega
  · intro hmode hskip hall
    induction evs generalizing st with
    | nil => exact ⟨rfl, hmode, rfl⟩
    | cons e evs ih =>
      have h1 := dmx_stall_step st e.1 e.2 hmode hskip (hall e (by simp))
      simp only [Dmx512.stepEvents, h1]
      have := ih { st with samplenum := e.1, aggreg := st.aggreg + e.2 } hmode hskip
        (fun x hx => hall x (by simp [hx]))
      simpa using this

/-- Witness for C10: at 100000 samples/s the derived `skip_per_bit` is
0, and a READ_BYTE state with `skip_per_bit = 0` consumes two later
events without emitting anything or leaving READ_BYTE. -/
theorem dmx_low_rate_stalls_witness :
    (Dmx512.metadata {} 100000).skip_per_bit = 0 ∧
    (Dmx512.stepEvents
      { samplerate := some 100000, sample_usec := 10, skip_per_bit := 0,
        samplenum := 0, run_start := 0, run_bit := 0, state := .READ_BYTE,
        bit_break := 0, channel := 0, bit := 0, aggreg := 0, byte := 0 }
      [(5,1),(9,0)]).2 = [] ∧
    (Dmx512.stepEvents
      { samplerate := some 100000, sample_usec := 10, skip_per_bit := 0,
        samplenum := 0, run_start := 0, run_bit := 0, state := .READ_BYTE,
        bit_break := 0, channel := 0, bit := 0, aggreg := 0, byte := 0 }
      [(5,1),(9,0)]).1.state = Dmx512.Mode.READ_BYTE := by
  have ha := ((dmx_low_rate_stalls 100000 {} []).1 (by norm_num)).mpr (by norm_num)
  have hb := (dmx_low_rate_stalls 100000
    { samplerate := some 100000, sample_usec := 10, skip_per_bit := 0,
      samplenum := 0, run_start := 0, run_bit := 0, state := .READ_BYTE,
      bit_break := 0, channel := 0, bit := 0, aggreg := 0, byte := 0 }
    [(5,1),(9,0)]).2 rfl rfl (by decide)
  exact ⟨ha, hb.1, hb.2.1⟩

/-- C1 evaluated on the code: an invalid stop bit in the FIRST stop-bit
window (bit index 9) does resynchronize to FIND_BREAK as claimed, but
an invalid stop bit in the SECOND stop-bit window (bit index 10) — here
at 1 µs per sample, `skip_per_bit` 4, run start 110, break level 0, a
low level decoding the stop bit to 0 at sample 154 — emits the
`Invalid stop bit` error and then still runs the byte-completion block:
the `Channel 1` and byte-value records are emitted and the state ends
as MARK_IFT (the assignment of FIND_BREAK is overwritten), refuting the
claim that the engine never proceeds to byte completion or to the
inter-frame gap state for that byte.  The calibration fields
`samplerate`/`sample_usec` are arbitrary here (left at their defaults):
the READ_BYTE branch never reads them. -/
theorem dmx_invalid_stop_bit_eval :
    (Dmx512.step
      { samplerate := none, sample_usec := 0, skip_per_bit := 4,
        samplenum := 149, run_start := 110, run_bit := 0, state := .READ_BYTE,
        bit_break := 0, channel := 1, bit := 9, aggreg := 0, byte := 85 } 150 0 =
      ({ samplerate := none, sample_usec := 0, skip_per_bit := 4,
         samplenum := 150, run_start := 110, run_bit := 0, state := .FIND_BREAK,
         bit_break := 0, channel := 1, bit := 10, aggreg := 0, byte := 85 },
       [⟨146, 150, 4, .stopbits⟩, ⟨150, 150, 10, .errInvalidStop⟩])) ∧
    (Dmx512.step
      { samplerate := none, sample_usec := 0, skip_per_bit := 4,
        samplenum := 153, run_start := 110, run_bit := 0, state := .READ_BYTE,
        bit_break := 0, channel := 1, bit := 10, aggreg := 0, byte := 85 } 154 0 =
      ({ samplerate := none, sample_usec := 0, skip_per_bit := 4,
         samplenum := 154, run_start := 154, run_bit := 0, state := .MARK_IFT,
         bit_break := 0, channel := 2, bit := 11, aggreg := 0, byte := 85 },
       [⟨150, 154, 4, .stopbits⟩, ⟨154, 154, 10, .errInvalidStop⟩,
        ⟨110, 154, 6, .channelAnn 1⟩, ⟨114, 146, 9, .data 85⟩])) := by
  decide

/-! ### Theorems about the spiflash command-dispatch engine -/

/-- C3: a session-boundary (CS-CHANGE) packet flushes the session: when
a deferred end-of-session callback is registered it runs exactly once
(one data-block record, after which the callback slot is cleared), and
in both cases the opcode resets to none, the offset counter to 1, the
address accumulator to 0 and the data buffer to empty; the closing
conjuncts replay a page-program session whose boundary arrives after
the opcode and the three address bytes but before any data byte: no
data-block dump is emitted, because no callback was registered. -/
theorem flash_session_flush (st : SpiFlash.State) (ss es : ℤ) (m mi : ℕ) :
    (st.on_end_transaction = none →
      SpiFlash.decode st ss es .CS_CHANGE m mi =
        ({ st with ss := ss, es := es, on_end_transaction := none, state := none,
                   cmdstate := 1, addr := 0, data := [] }, []))
    ∧ (∀ label, st.on_end_transaction = some label →
      SpiFlash.decode st ss es .CS_CHANGE m mi =
        ({ st with ss := ss, es := es, es_block := es, on_end_transaction := none,
                   state := none, cmdstate := 1, addr := 0, data := [] },
         [⟨st.ss_block, es, 25, .dataBlock label st.data⟩]))
    ∧ ((SpiFlash.decodeEvents {}
        [(0,1,.DATA,0x02,0),(2,3,.DATA,0x12,0),(4,5,.DATA,0x34,0),
         (6,7,.DATA,0x56,0),(8,9,.CS_CHANGE,0,0)]).2 =
        [⟨0,1,12,.command .pp⟩, ⟨6,7,24,.pageAddress 0x123456⟩] ∧
      (SpiFlash.decodeEvents {}
        [(0,1,.DATA,0x02,0),(2,3,.DATA,0x12,0),(4,5,.DATA,0x34,0),
         (6,7,.DATA,0x56,0),(8,9,.CS_CHANGE,0,0)]).1 =
        { ss := 8, es := 9, on_end_transaction := none, state := none,
          cmdstate := 1, addr := 0, data := [] }) := by
  refine ⟨fun h => ?_, fun label h => ?_, by decide, by decide⟩
  · simp [SpiFlash.decode, SpiFlash.end_current_transaction, h]
  · simp [SpiFlash.decode, SpiFlash.end_current_transaction,
      SpiFlash.output_data_block, SpiFlash.putb, h]

/-- Witness for C3: flushing a fresh session emits nothing and leaves
the opcode cleared; flushing a session with a pending page-data
callback over bytes `[1, 2]` emits exactly one data-block record. -/
theorem flash_session_flush_witness :
    (SpiFlash.decode {} 10 20 .CS_CHANGE 0 0).1.state = none ∧
    (SpiFlash.decode {} 10 20 .CS_CHANGE 0 0).2 = [] ∧
    (SpiFlash.decode { on_end_transaction := some .pageData, data := [1,2], ss_block := 3 }
      10 20 .CS_CHANGE 0 0).2 = [⟨3, 20, 25, .dataBlock .pageData [1,2]⟩] ∧
    (SpiFlash.decode { on_end_transaction := some .pageData, data := [1,2], ss_block := 3 }
      10 20 .CS_CHANGE 0 0).1.on_end_transaction = none := by
  have h1 := (flash_session_flush {} 10 20 0 0).1 rfl
  have h2 := (flash_session_flush
    { on_end_transaction := some .pageData, data := [1,2], ss_block := 3 }
    10 20 0 0).2.1 .pageData rfl
  rw [h1, h2]
  exact ⟨rfl, rfl, rfl, rfl⟩

/-- Helper for C4, checked exhaustively on nibbles: `combine_byte`
interleaves two nibbles so that the even-indexed bits of the result are
the first nibble and the odd-indexed bits the second. -/
theorem nibble_roundtrip : ∀ e < 16, ∀ o < 16,
    SpiFlash.even_bits (SpiFlash.combine_byte e o) = e ∧
    SpiFlash.odd_bits (SpiFlash.combine_byte e o) = o := by decide

/-- Helper for C4: recombining two nibbles by shift-or is the usual
base-16 digit composition. -/
theorem shl4_or_eq : ∀ a < 16, ∀ b < 16, (a <<< 4) ||| b = 16 * a + b := by decide

/-- Helper for C4: masking with a single bit below bit 4 ignores
everything above the low nibble. -/
theorem and_mask_mod16 (x b : ℕ) (hb : b < 4) :
    (x % 16) &&& (1 <<< b) = x &&& (1 <<< b) := by
  apply Nat.eq_of_testBit_eq
  intro i
  rw [Nat.one_shiftLeft, Nat.testBit_and, Nat.testBit_and]
  by_cases hib : i = b
  · subst hib
    have h1 : (x % 16).testBit i = (decide (i < 4) && x.testBit i) :=
      Nat.testBit_mod_two_pow x 4 i
    rw [h1, decide_eq_true hb, Bool.true_and]
  · have h2 : (2 ^ b).testBit i = false :=
      Nat.testBit_two_pow_of_ne (fun h => hib h.symm)
    rw [h2, Bool.and_false, Bool.and_false]

/-- Helper for C4: `combine_byte` only reads bits 0..3 of its
arguments, so it is invariant under reduction modulo 16. -/
theorem combine_byte_mod16 (x y : ℕ) :
    SpiFlash.combine_byte (x % 16) (y % 16) = SpiFlash.combine_byte x y := by
  show (List.range 4).foldl _ 0 = (List.range 4).foldl _ 0
  have hr : List.range 4 = [0, 1, 2, 3] := rfl
  rw [hr]
  simp only [List.foldl]
  rw [and_mask_mod16 x 0 (by norm_num), and_mask_mod16 x 1 (by norm_num),
      and_mask_mod16 x 2 (by norm_num), and_mask_mod16 x 3 (by norm_num),
      and_mask_mod16 y 0 (by norm_num), and_mask_mod16 y 1 (by norm_num),
      and_mask_mod16 y 2 (by norm_num), and_mask_mod16 y 3 (by norm_num)]

/-- C4: the dual-I/O de-interleaving is its own inverse — for every
primary/secondary byte pair, reconstructing the two output bytes with
`decode_dual_bytes` and re-splitting them (even-indexed bits back to
the primary byte, odd-indexed bits back to the secondary byte) returns
exactly the original pair. -/
theorem flash_dual_io_roundtrip : ∀ s0 < 256, ∀ s1 < 256,
    SpiFlash.resplit (SpiFlash.decode_dual_bytes s0 s1).1
      (SpiFlash.decode_dual_bytes s0 s1).2 = (s0, s1) := by
  intro s0 hs0 s1 hs1
  have hq0 : s0 / 16 < 16 := by omega
  have hq1 : s1 / 16 < 16 := by omega
  have hr0 : s0 % 16 < 16 := Nat.mod_lt _ (by norm_num)
  have hr1 : s1 % 16 < 16 := Nat.mod_lt _ (by norm_num)
  have hsh0 : s0 >>> 4 = s0 / 16 := by
    rw [Nat.shiftRight_eq_div_pow]
  have hsh1 : s1 >>> 4 = s1 / 16 := by
    rw [Nat.shiftRight_eq_div_pow]
  have hHi := nibble_roundtrip (s0 / 16) hq0 (s1 / 16) hq1
  have hLo := nibble_roundtrip (s0 % 16) hr0 (s1 % 16) hr1
  simp only [SpiFlash.decode_dual_bytes, hsh0, hsh1,
    ← combine_byte_mod16 s0 s1, SpiFlash.resplit]
  rw [hHi.1, hHi.2, hLo.1, hLo.2,
      shl4_or_eq (s0 / 16) hq0 (s0 % 16) hr0,
      shl4_or_eq (s1 / 16) hq1 (s1 % 16) hr1]
  simp only [Prod.mk.injEq]
  omega

/-- Witness for C4 at the pair `(0xA3, 0x5C)`, which de-interleaves to
`(102, 165)` and re-splits back to `(0xA3, 0x5C)`. -/
theorem flash_dual_io_roundtrip_witness :
    SpiFlash.resplit (SpiFlash.decode_dual_bytes 0xA3 0x5C).1
      (SpiFlash.decode_dual_bytes 0xA3 0x5C).2 = (0xA3, 0x5C) :=
  flash_dual_io_roundtrip 0xA3 (by decide) 0x5C (by decide)

/-- C5 evaluated on the code: a sector-erase of address 4097
(misaligned) emits exactly one warning record and an aligned address
4096 emits none, and in both cases the opcode is cleared — but the
warning record carries annotation class index 101, which is not one of
the decoder's 27 registered classes (0..26); the registered `warnings`
class has index 26. -/
theorem flash_se_warning_eval :
    ((SpiFlash.decodeEvents {}
        [(0,1,.DATA,0x20,0),(2,3,.DATA,0x00,0),(4,5,.DATA,0x10,0),(6,7,.DATA,0x01,0)]).2 =
      [⟨0,1,8,.command .se⟩, ⟨0,7,24,.eraseSector 4097⟩,
       ⟨0,7,101,.warnInvalidSectorAddress⟩] ∧
     (SpiFlash.decodeEvents {}
        [(0,1,.DATA,0x20,0),(2,3,.DATA,0x00,0),(4,5,.DATA,0x10,0),(6,7,.DATA,0x01,0)]).1.state
       = none) ∧
    ((SpiFlash.decodeEvents {}
        [(0,1,.DATA,0x20,0),(2,3,.DATA,0x00,0),(4,5,.DATA,0x10,0),(6,7,.DATA,0x00,0)]).2 =
      [⟨0,1,8,.command .se⟩, ⟨0,7,24,.eraseSector 4096⟩] ∧
     (SpiFlash.decodeEvents {}
        [(0,1,.DATA,0x20,0),(2,3,.DATA,0x00,0),(4,5,.DATA,0x10,0),(6,7,.DATA,0x00,0)]).1.state
       = none) ∧
    SpiFlash.warnings_cls = 26 ∧ SpiFlash.num_cls = 27 ∧
    ¬ 101 < SpiFlash.num_cls := by
  decide

/-- Counterexample for C6 as stated: after the write-disable opcode
byte (0x04), the active opcode is NOT cleared (it remains 0x04), and
the next data byte pair (here carrying the write-enable opcode 0x06) is
consumed silently by the same stub handler rather than being
interpreted as a fresh opcode — no record at all is emitted. -/
theorem flash_wrdi_counterexample :
    (SpiFlash.decodeEvents {} [(0,1,.DATA,0x04,0),(2,3,.DATA,0x06,0)]).1.state = some 4 ∧
    (SpiFlash.decodeEvents {} [(0,1,.DATA,0x04,0),(2,3,.DATA,0x06,0)]).2 = [] ∧
    SpiFlash.cmd_handlers 0x04 = some .wrdi ∧ SpiFlash.cmd_handlers 0x06 = some .wren := by
  decide

/-- C6 as amended: write-enable is single-byte and complete after byte
1 — its handler emits the command record and clears the active opcode,
so the next data byte pair is interpreted as a fresh opcode (two
consecutive 0x06 bytes each emit a command record) — while
write-disable's handler is an unimplemented no-op stub that does not
clear the active opcode, so subsequent byte pairs in the same session
are consumed silently by it. -/
theorem flash_write_enable_disable (st : SpiFlash.State) (m mi : ℕ) :
    (SpiFlash.handle_wren st m mi =
      ({ st with state := none }, [⟨st.ss, st.es, 0, .command .wren⟩]))
    ∧ (SpiFlash.handle_wrdi st m mi = (st, []))
    ∧ ((SpiFlash.decodeEvents {} [(0,1,.DATA,0x06,0),(2,3,.DATA,0x06,0)]).2 =
        [⟨0,1,0,.command .wren⟩, ⟨2,3,0,.command .wren⟩] ∧
       (SpiFlash.decodeEvents {} [(0,1,.DATA,0x06,0),(2,3,.DATA,0x06,0)]).1.state = none) ∧
    ((SpiFlash.decodeEvents {} [(0,1,.DATA,0x04,0),(2,3,.DATA,0x06,0)]).1.state = some 4 ∧
     (SpiFlash.decodeEvents {} [(0,1,.DATA,0x04,0),(2,3,.DATA,0x06,0)]).2 = []) := by
  exact ⟨rfl, rfl, by decide, by decide⟩
